import Mathlib

/-!
# Verification of the smart-home dashboard state store

Shallow embedding of the persistence and state-transition helpers of
`src/dashboard/dashboard.py` (`load_json`, `save_json`, `get_devices`,
`save_devices`, `get_alerts`, `save_alerts`, `update_device_status`,
`push_fake_alert`).

Modelling choices, stated once here:

* JSON values are the inductive `JsonVal`.  A JSON object models a Python
  dict produced by `json.loads` / dict literals: an ordered association
  list with unique keys (Python dicts are insertion-ordered; `json.loads`
  deduplicates keys).
* The persisted file is `FileState`: `absent` (no file), `corrupt`
  (present, `json.loads` raises), or `doc v` (present, parses to `v`).
  The `json` library is modelled as a bijection between serialised text
  and `JsonVal`: `save_json` always writes text that parses back to its
  argument, so writing is `FileState.doc`.
* Python exceptions (`AttributeError` on `.get` of a non-dict,
  `TypeError` when iterating a non-list, `IndexError` of
  `random.choice([])`) are modelled by `Option`: `none` means the Python
  function raises before reaching its write, `some` that it returns
  normally.  Iterating a JSON string or object also raises before any
  write (`AttributeError` on the element), so every non-list `devices`
  value is `none`.
* `random.choice(xs)` and `random.random()` draw from the ambient random
  source; `datetime.now().strftime(...)` reads the wall clock.  They are
  injected: a `Draws` record carries one index per `choice` call
  (`choice xs` returns `xs[i % len xs]` for the injected index `i`) and a
  rational for `random.random()`; the formatted timestamp string is an
  argument.  With these injected the generator is a pure function.
-/

/-- A JSON value, as produced by `json.loads`.  Numbers occurring in this
repository are integers (VLAN tags), so `num` carries an `Int`. -/
inductive JsonVal where
  | null : JsonVal
  | bool (b : Bool) : JsonVal
  | num (n : Int) : JsonVal
  | str (s : String) : JsonVal
  | arr (elems : List JsonVal) : JsonVal
  | obj (fields : List (String × JsonVal)) : JsonVal

/-- The state of one persisted JSON file. -/
inductive FileState where
  | absent : FileState
  | corrupt : FileState
  | doc (v : JsonVal) : FileState

namespace Dashboard

open JsonVal

/-- Python `k in d` on a dict. -/
def hasKey : List (String × JsonVal) → String → Bool
  | [], _ => false
  | (k, _) :: rest, key => if k = key then true else hasKey rest key

/-- Python `d.get(k)` on a dict: the value bound to `k`, or `None`
(modelled `JsonVal.null`) when the key is missing. -/
def pyGet : List (String × JsonVal) → String → JsonVal
  | [], _ => JsonVal.null
  | (k, v) :: rest, key => if k = key then v else pyGet rest key

/-- Python `d.get(k, default)` on a dict. -/
def pyGetD : List (String × JsonVal) → String → JsonVal → JsonVal
  | [], _, default => default
  | (k, v) :: rest, key, default => if k = key then v else pyGetD rest key default

/-- Python `d[k] = v` on a dict: replaces the value of the binding of `k`
in place when the key exists (insertion order kept; a dict binds each key
once), appends the binding otherwise. -/
def dictSet : List (String × JsonVal) → String → JsonVal → List (String × JsonVal)
  | [], key, v => [(key, v)]
  | (a, b) :: rest, key, v =>
    if a = key then (key, v) :: rest else (a, b) :: dictSet rest key v

/-- Python `v == s` between a JSON value and a string literal: true exactly
when `v` is that string (Python string equality never identifies a string
with a number, boolean, `None`, list or dict). -/
def isStrEq (v : JsonVal) (s : String) : Bool :=
  match v with
  | .str t => t == s
  | _ => false

/-- Whether a JSON value is an object (a Python dict). -/
def isObj : JsonVal → Bool
  | .obj _ => true
  | _ => false

/-- The fields of an object, `[]` for any other value (used only under an
`isObj` guard). -/
def objFields : JsonVal → List (String × JsonVal)
  | .obj fs => fs
  | _ => []

/-- `load_json(path, fallback)`: returns the parsed document when the file
exists and parses, the fallback when the file is absent or `json.loads`
raises. -/
def load_json (fs : FileState) (fallback : JsonVal) : JsonVal :=
  match fs with
  | .absent => fallback
  | .corrupt => fallback
  | .doc v => v

/-- `save_json(path, data)`: `path.write_text(json.dumps(data, indent=2))`.
The written text parses back to `data`, so the file state becomes
`doc data`. -/
def save_json (data : JsonVal) : FileState :=
  FileState.doc data

/-- `get_devices()`: `load_json(NETWORK_PATH, {"devices": []}).get("devices", [])`.
`none` models the `AttributeError` Python raises when the parsed document
is not a dict. -/
def get_devices (network : FileState) : Option JsonVal :=
  match load_json network (.obj [("devices", .arr [])]) with
  | .obj fields => some (pyGetD fields "devices" (.arr []))
  | _ => none

/-- `save_devices(devices)`: `save_json(NETWORK_PATH, {"devices": devices})`. -/
def save_devices (devices : List JsonVal) : FileState :=
  save_json (.obj [("devices", .arr devices)])

/-- `get_alerts()`: `load_json(ALERTS_PATH, {"alerts": []}).get("alerts", [])`. -/
def get_alerts (alertsFile : FileState) : Option JsonVal :=
  match load_json alertsFile (.obj [("alerts", .arr [])]) with
  | .obj fields => some (pyGetD fields "alerts" (.arr []))
  | _ => none

/-- `save_alerts(alerts)`: `save_json(ALERTS_PATH, {"alerts": alerts})`. -/
def save_alerts (alerts : List JsonVal) : FileState :=
  save_json (.obj [("alerts", .arr alerts)])

/-- The body of the `for d in devices` loop of `update_device_status`, on
one device record: when `d.get("name") == name`, sets `d["status"]` and,
when a new VLAN is given, `d["vlan"]`; otherwise leaves the record as is. -/
def updDevice (name new_status : String) (new_vlan : Option Int)
    (d : JsonVal) : JsonVal :=
  match d with
  | .obj fields =>
    if isStrEq (pyGet fields "name") name then
      let fields := dictSet fields "status" (.str new_status)
      let fields :=
        match new_vlan with
        | some v => dictSet fields "vlan" (.num v)
        | none => fields
      .obj fields
    else
      .obj fields
  | d => d

/-- `update_device_status(name, new_status, new_vlan=None)`: loads the
devices, mutates every record whose `name` matches (the loop has no
`break`), then saves.  `none` models a Python exception: the document is
not a dict, the `devices` value is not a list, or an element is not a
dict (its `.get` raises), each of which fires before `save_devices`. -/
def update_device_status (name new_status : String) (new_vlan : Option Int)
    (network : FileState) : Option FileState :=
  match get_devices network with
  | none => none
  | some v =>
    match v with
    | .arr devices =>
      if devices.all isObj then
        some (save_devices (devices.map (updDevice name new_status new_vlan)))
      else
        none
    | _ => none

/-- The fixed alert-type catalog of `push_fake_alert` (line 100 of
`dashboard.py`). -/
def typeCatalog : List String :=
  ["Port Scan", "Malware Beacon", "Unauthorized Access", "Brute Force"]

/-- The fixed severity catalog of `push_fake_alert`. -/
def severityCatalog : List String :=
  ["Low", "Medium", "High"]

/-- The injected outcomes of the ambient random source for one run of
`push_fake_alert`: an index for each `random.choice` call (`choice xs`
returns `xs[i % len xs]`) and the value of `random.random()`. -/
structure Draws where
  deviceIdx : Nat
  typeIdx : Nat
  sevIdx : Nat
  roll : ℚ

/-- `random.choice(xs)` with injected index `i`: `xs[i % len xs]`, raising
(`none`) on an empty sequence. -/
def pyChoice (xs : List JsonVal) (i : Nat) : Option JsonVal :=
  xs[i % xs.length]?

/-- `random.choice` over a nonempty list of strings (the two catalog
choices), with injected index `i`. -/
def pyChoiceStr (xs : List String) (i : Nat) : String :=
  xs.getD (i % xs.length) ""

/-- The alert record built by `push_fake_alert` from the chosen device,
the injected draws and the formatted timestamp. -/
def mkAlert (clock : String) (device : List (String × JsonVal))
    (draws : Draws) : JsonVal :=
  .obj [("timestamp", .str clock),
        ("device", pyGet device "name"),
        ("ip", pyGet device "ip"),
        ("type", .str (pyChoiceStr typeCatalog draws.typeIdx)),
        ("severity", .str (pyChoiceStr severityCatalog draws.sevIdx)),
        ("vlan", pyGet device "vlan"),
        ("status", .str (if (2 : ℚ)/5 < draws.roll then "Blocked" else "Detected"))]

/-- The `suspects` list of `push_fake_alert`: devices whose
`.get("status")` differs from `"Safe"` (a missing status is `None`, which
also differs). -/
def suspectsOf (devices : List JsonVal) : List JsonVal :=
  devices.filter (fun d => !isStrEq (pyGet (objFields d) "status") "Safe")

/-- `push_fake_alert(devices)`: returns immediately when `devices` is
empty; otherwise chooses a device from the suspects (falling back to all
devices), builds one alert, appends it to the loaded alert list and saves.
The result is the new alert-file state; `none` models a Python exception
(a non-dict device record, a non-dict alert document, or a non-list
`alerts` value), each of which fires before `save_alerts`. -/
def push_fake_alert (devices : List JsonVal) (draws : Draws) (clock : String)
    (alertsFile : FileState) : Option FileState :=
  if devices.isEmpty then
    some alertsFile
  else if devices.all isObj then
    let suspects := suspectsOf devices
    let pool := if suspects.isEmpty then devices else suspects
    match pyChoice pool draws.deviceIdx with
    | none => none
    | some device =>
      match get_alerts alertsFile with
      | none => none
      | some (.arr alerts) =>
        some (save_alerts (alerts ++ [mkAlert clock (objFields device) draws]))
      | some _ => none
  else
    none

/-- A well-formed device record per the device-document schema: a dict
whose `name`, `ip` and `status` values are strings and whose `vlan` value
is an integer. -/
def isDeviceRecord (d : JsonVal) : Bool :=
  match d with
  | .obj fields =>
    (match pyGet fields "name" with | .str _ => true | _ => false) &&
    (match pyGet fields "ip" with | .str _ => true | _ => false) &&
    (match pyGet fields "vlan" with | .num _ => true | _ => false) &&
    (match pyGet fields "status" with | .str _ => true | _ => false)
  | _ => false

/-! ## The concrete records of the specified scenarios -/

/-- The seed device of the end-to-end scenario of §8. -/
def bulbSeed : JsonVal :=
  .obj [("name", .str "Bulb"), ("ip", .str "10.0.40.5"),
        ("vlan", .num 40), ("status", .str "Safe")]

/-- The Bulb record after quarantine: VLAN 99, status Quarantined. -/
def bulbQuar : JsonVal :=
  .obj [("name", .str "Bulb"), ("ip", .str "10.0.40.5"),
        ("vlan", .num 99), ("status", .str "Quarantined")]

/-- First of two distinct device records sharing the name `X`. -/
def dupFirst : JsonVal :=
  .obj [("name", .str "X"), ("ip", .str "10.0.40.1"),
        ("vlan", .num 40), ("status", .str "Safe")]

/-- Second of two distinct device records sharing the name `X`. -/
def dupSecond : JsonVal :=
  .obj [("name", .str "X"), ("ip", .str "10.0.40.2"),
        ("vlan", .num 40), ("status", .str "Safe")]

/-- `dupFirst` after the quarantine transition. -/
def dupFirstQ : JsonVal :=
  .obj [("name", .str "X"), ("ip", .str "10.0.40.1"),
        ("vlan", .num 99), ("status", .str "Quarantined")]

/-- `dupSecond` after the quarantine transition. -/
def dupSecondQ : JsonVal :=
  .obj [("name", .str "X"), ("ip", .str "10.0.40.2"),
        ("vlan", .num 99), ("status", .str "Quarantined")]

/-- A device record whose status is not Safe (a suspect of the
generator). -/
def camSusp : JsonVal :=
  .obj [("name", .str "Camera"), ("ip", .str "10.0.40.7"),
        ("vlan", .num 40), ("status", .str "Suspicious")]

/-! ## Lemmas about the dict operations -/

theorem pyGet_dictSet_self (fields : List (String × JsonVal)) (k : String)
    (v : JsonVal) : pyGet (dictSet fields k v) k = v := by
  induction fields with
  | nil => simp [dictSet, pyGet]
  | cons p rest ih =>
    obtain ⟨a, b⟩ := p
    by_cases hak : a = k
    · simp [dictSet, pyGet, hak]
    · simp [dictSet, pyGet, hak, ih]

theorem pyGet_dictSet_ne (fields : List (String × JsonVal)) (k target : String)
    (v : JsonVal) (h : target ≠ k) :
    pyGet (dictSet fields k v) target = pyGet fields target := by
  induction fields with
  | nil => simp [dictSet, pyGet, if_neg (fun hh => h (Eq.symm hh))]
  | cons p rest ih =>
    obtain ⟨a, b⟩ := p
    by_cases hak : a = k
    · subst hak
      simp [dictSet, pyGet, if_neg (fun hh => h (Eq.symm hh))]
    · simp [dictSet, pyGet, hak, ih]

/-- Loading the device file written by `save_devices` yields back exactly
the saved collection. -/
theorem get_devices_save (ds : List JsonVal) :
    get_devices (save_devices ds) = some (.arr ds) := rfl

/-- Loading the alert file written by `save_alerts` yields back exactly
the saved sequence. -/
theorem get_alerts_save (xs : List JsonVal) :
    get_alerts (save_alerts xs) = some (.arr xs) := rfl

/-! ## Lemmas about the per-record update step -/

theorem updDevice_match (fields : List (String × JsonVal)) (n st : String)
    (vl : Option Int) (h : isStrEq (pyGet fields "name") n = true) :
    ∃ fields2, updDevice n st vl (.obj fields) = .obj fields2
      ∧ pyGet fields2 "status" = .str st
      ∧ (∀ v, vl = some v → pyGet fields2 "vlan" = .num v)
      ∧ (vl = none → pyGet fields2 "vlan" = pyGet fields "vlan")
      ∧ pyGet fields2 "name" = pyGet fields "name" := by
  cases vl with
  | none =>
    refine ⟨dictSet fields "status" (.str st), ?_, ?_, ?_, ?_, ?_⟩
    · simp [updDevice, h]
    · exact pyGet_dictSet_self fields "status" (.str st)
    · intro v hv; cases hv
    · intro _
      exact pyGet_dictSet_ne fields "status" "vlan" (.str st) (by decide)
    · exact pyGet_dictSet_ne fields "status" "name" (.str st) (by decide)
  | some v =>
    refine ⟨dictSet (dictSet fields "status" (.str st)) "vlan" (.num v),
      ?_, ?_, ?_, ?_, ?_⟩
    · simp [updDevice, h]
    · rw [pyGet_dictSet_ne _ "vlan" "status" _ (by decide)]
      exact pyGet_dictSet_self fields "status" (.str st)
    · intro w hw
      cases hw
      exact pyGet_dictSet_self _ "vlan" (.num v)
    · intro hv; cases hv
    · rw [pyGet_dictSet_ne _ "vlan" "name" _ (by decide)]
      exact pyGet_dictSet_ne fields "status" "name" (.str st) (by decide)

theorem updDevice_no_match (fields : List (String × JsonVal)) (n st : String)
    (vl : Option Int) (h : isStrEq (pyGet fields "name") n = false) :
    updDevice n st vl (.obj fields) = .obj fields := by
  simp [updDevice, h]

theorem updDevice_not_obj (d : JsonVal) (n st : String) (vl : Option Int)
    (h : isObj d = false) : updDevice n st vl d = d := by
  cases d <;> simp_all [isObj, updDevice]

/-- `update_device_status` on a well-formed stored collection: it loads the
collection, maps the per-record update over it and saves the result. -/
theorem update_device_status_doc (ds : List JsonVal) (n st : String)
    (vl : Option Int) (hwf : ds.all isObj = true) :
    update_device_status n st vl (.doc (.obj [("devices", .arr ds)]))
      = some (save_devices (ds.map (updDevice n st vl))) := by
  simp [update_device_status, get_devices, load_json, pyGetD, hwf]

/-! ## The claims -/

/-- C1: starting from the single-device collection holding the Bulb
record, `setStatus("Bulb","Quarantined",99)` followed by `load()` yields
the Bulb record with VLAN 99 and status Quarantined, and a subsequent
`setStatus("Bulb","Safe",40)` followed by `load()` restores VLAN 40 and
status Safe; in general, after `setStatus(n,"Quarantined",99)` on a
well-formed stored collection containing a device named `n`, the stored
collection has a record named `n`, and every stored record named `n` has
status Quarantined and VLAN 99. -/
theorem quarantine_convention (ds : List JsonVal) (n : String)
    (hwf : ds.all isObj = true)
    (hmem : ∃ d ∈ ds, isStrEq (pyGet (objFields d) "name") n = true) :
    (update_device_status "Bulb" "Quarantined" (some 99)
        (.doc (.obj [("devices", .arr [bulbSeed])]))
        = some (save_devices [bulbQuar])
      ∧ get_devices (save_devices [bulbQuar]) = some (.arr [bulbQuar])
      ∧ update_device_status "Bulb" "Safe" (some 40) (save_devices [bulbQuar])
        = some (save_devices [bulbSeed])
      ∧ get_devices (save_devices [bulbSeed]) = some (.arr [bulbSeed]))
    ∧ ∃ ds2,
        update_device_status n "Quarantined" (some 99)
            (.doc (.obj [("devices", .arr ds)]))
          = some (save_devices ds2)
        ∧ get_devices (save_devices ds2) = some (.arr ds2)
        ∧ (∃ d ∈ ds2, isStrEq (pyGet (objFields d) "name") n = true)
        ∧ ∀ d ∈ ds2, isStrEq (pyGet (objFields d) "name") n = true →
            pyGet (objFields d) "status" = .str "Quarantined"
            ∧ pyGet (objFields d) "vlan" = .num 99 := by
  refine ⟨⟨rfl, rfl, rfl, rfl⟩,
    ds.map (updDevice n "Quarantined" (some 99)),
    update_device_status_doc ds n "Quarantined" (some 99) hwf,
    get_devices_save _, ?_, ?_⟩
  · obtain ⟨d, hd, hname⟩ := hmem
    have hobj : isObj d = true := List.all_eq_true.mp hwf d hd
    obtain ⟨fields, rfl⟩ : ∃ fields, d = .obj fields := by
      cases d <;> simp_all [isObj]
    obtain ⟨fields2, heq, _, _, _, hname2⟩ :=
      updDevice_match fields n "Quarantined" (some 99)
        (by simpa [objFields] using hname)
    refine ⟨updDevice n "Quarantined" (some 99) (.obj fields),
      List.mem_map_of_mem _ hd, ?_⟩
    rw [heq]
    simp only [objFields, hname2]
    simpa [objFields] using hname
  · intro d2 hd2 hname2
    obtain ⟨d, hd, hmap⟩ := List.mem_map.mp hd2
    have hobj : isObj d = true := List.all_eq_true.mp hwf d hd
    obtain ⟨fields, rfl⟩ : ∃ fields, d = .obj fields := by
      cases d <;> simp_all [isObj]
    by_cases hn : isStrEq (pyGet fields "name") n = true
    · obtain ⟨fields2, heq, hst, hvl, _, _⟩ :=
        updDevice_match fields n "Quarantined" (some 99) hn
      rw [← hmap, heq]
      exact ⟨by simpa [objFields] using hst,
        by simpa [objFields] using hvl 99 rfl⟩
    · have h0 : isStrEq (pyGet fields "name") n = false :=
        Bool.eq_false_iff.mpr hn
      rw [← hmap, updDevice_no_match fields n "Quarantined" (some 99) h0] at hname2
      simp only [objFields] at hname2
      exact absurd hname2 hn

/-- C1 witness: the general statement applied to the concrete Bulb
collection. -/
theorem quarantine_convention_witness :
    ∃ ds2,
      update_device_status "Bulb" "Quarantined" (some 99)
          (.doc (.obj [("devices", .arr [bulbSeed])]))
        = some (save_devices ds2)
      ∧ get_devices (save_devices ds2) = some (.arr ds2)
      ∧ (∃ d ∈ ds2, isStrEq (pyGet (objFields d) "name") "Bulb" = true)
      ∧ ∀ d ∈ ds2, isStrEq (pyGet (objFields d) "name") "Bulb" = true →
          pyGet (objFields d) "status" = .str "Quarantined"
          ∧ pyGet (objFields d) "vlan" = .num 99 :=
  (quarantine_convention [bulbSeed] "Bulb" rfl
    ⟨bulbSeed, by simp, rfl⟩).2

/-- C2: for every valid device collection `D`, loading right after saving
`D` returns exactly `D`: every record, every field and the record order
are preserved. -/
theorem save_load_roundtrip (D : List JsonVal)
    (_hD : D.all isDeviceRecord = true) :
    get_devices (save_devices D) = some (.arr D) :=
  get_devices_save D

/-- C2 witness: the round trip at the concrete one-record collection. -/
theorem save_load_roundtrip_witness :
    [bulbSeed].all isDeviceRecord = true
    ∧ get_devices (save_devices [bulbSeed]) = some (.arr [bulbSeed]) :=
  ⟨rfl, save_load_roundtrip [bulbSeed] rfl⟩

/-- C5: when the device document is absent, and when it is present but
fails to parse, `load()` returns the empty sequence instead of raising
(`some` is a normal return; the parse failure is absorbed by the
fallback). -/
theorem load_soft_fail :
    get_devices FileState.absent = some (.arr [])
    ∧ get_devices FileState.corrupt = some (.arr []) :=
  ⟨rfl, rfl⟩

/-- C10: for every name, status and optional VLAN, `setStatus` on an
absent or unparsable device document returns normally and writes a
document holding an empty device collection, replacing whatever was on
disk. -/
theorem setstatus_resets_bad_document (n st : String) (vl : Option Int) :
    update_device_status n st vl FileState.absent
      = some (FileState.doc (.obj [("devices", .arr [])]))
    ∧ update_device_status n st vl FileState.corrupt
      = some (FileState.doc (.obj [("devices", .arr [])])) :=
  ⟨rfl, rfl⟩

/-- C4: `setStatus` with a name matching no stored device returns normally
and saves the device collection exactly as it was loaded. -/
theorem setstatus_unknown_name_noop (fields : List (String × JsonVal))
    (ds : List JsonVal) (n st : String) (vl : Option Int)
    (hdev : pyGetD fields "devices" (.arr []) = .arr ds)
    (hwf : ds.all isObj = true)
    (hno : ∀ d ∈ ds, isStrEq (pyGet (objFields d) "name") n = false) :
    update_device_status n st vl (.doc (.obj fields)) = some (save_devices ds)
    ∧ get_devices (save_devices ds) = some (.arr ds) := by
  have hmap : ds.map (updDevice n st vl) = ds := by
    conv_rhs => rw [← List.map_id ds]
    apply List.map_congr_left
    intro d hd
    have hobj : isObj d = true := List.all_eq_true.mp hwf d hd
    obtain ⟨f, rfl⟩ : ∃ f, d = .obj f := by
      cases d <;> simp_all [isObj]
    exact updDevice_no_match f n st vl (hno _ hd)
  constructor
  · simp [update_device_status, get_devices, load_json, hdev, hwf, hmap]
  · exact get_devices_save ds

/-- C4 witness: the no-op applied to the Bulb collection with an unknown
name. -/
theorem setstatus_unknown_name_noop_witness :
    update_device_status "Toaster" "Safe" none
        (.doc (.obj [("devices", .arr [bulbSeed])]))
      = some (save_devices [bulbSeed])
    ∧ get_devices (save_devices [bulbSeed]) = some (.arr [bulbSeed]) :=
  setstatus_unknown_name_noop [("devices", .arr [bulbSeed])] [bulbSeed]
    "Toaster" "Safe" none rfl rfl
    (by intro d hd; rw [List.mem_singleton] at hd; subst hd; rfl)

/-- C3 counterexample: on a collection with two devices named `X`,
`setStatus("X","Quarantined",99)` updates both records; the second match
in iteration order is not left unchanged (its status flips from Safe to
Quarantined). -/
theorem first_match_only_refuted :
    update_device_status "X" "Quarantined" (some 99)
        (.doc (.obj [("devices", .arr [dupFirst, dupSecond])]))
      = some (save_devices [dupFirstQ, dupSecondQ])
    ∧ get_devices (save_devices [dupFirstQ, dupSecondQ])
      = some (.arr [dupFirstQ, dupSecondQ])
    ∧ pyGet (objFields dupSecond) "status" = .str "Safe"
    ∧ pyGet (objFields dupSecondQ) "status" = .str "Quarantined"
    ∧ dupSecondQ ≠ dupSecond := by
  refine ⟨rfl, rfl, rfl, rfl, ?_⟩
  simp [dupSecondQ, dupSecond]

/-- `List.getD` of a mapped list below its length. -/
theorem getD_map_lt (f : JsonVal → JsonVal) (ds : List JsonVal) (i : Nat)
    (hi : i < ds.length) :
    (ds.map f).getD i .null = f (ds.getD i .null) := by
  rw [List.getD_eq_getElem?_getD, List.getD_eq_getElem?_getD,
    List.getElem?_map, List.getElem?_eq_getElem hi]
  simp

/-- C3 amended: `setStatus` updates every record whose name matches, not
only the first in iteration order; records whose name does not match are
left unchanged. -/
theorem setstatus_updates_every_match (ds : List JsonVal) (n st : String)
    (vl : Option Int) (hwf : ds.all isObj = true) :
    ∃ ds2,
      update_device_status n st vl (.doc (.obj [("devices", .arr ds)]))
        = some (save_devices ds2)
      ∧ ds2.length = ds.length
      ∧ ∀ i, i < ds.length →
          (isStrEq (pyGet (objFields (ds.getD i .null)) "name") n = true →
            pyGet (objFields (ds2.getD i .null)) "status" = .str st
            ∧ (∀ v, vl = some v →
                pyGet (objFields (ds2.getD i .null)) "vlan" = .num v)
            ∧ (vl = none →
                pyGet (objFields (ds2.getD i .null)) "vlan"
                  = pyGet (objFields (ds.getD i .null)) "vlan"))
          ∧ (isStrEq (pyGet (objFields (ds.getD i .null)) "name") n = false →
            ds2.getD i .null = ds.getD i .null) := by
  refine ⟨ds.map (updDevice n st vl),
    update_device_status_doc ds n st vl hwf, by simp, ?_⟩
  intro i hi
  have hget : (ds.map (updDevice n st vl)).getD i .null
      = updDevice n st vl (ds.getD i .null) := getD_map_lt _ ds i hi
  have hmem : ds.getD i .null ∈ ds := by
    rw [List.getD_eq_getElem?_getD, List.getElem?_eq_getElem hi]
    exact List.getElem_mem hi
  have hobj : isObj (ds.getD i .null) = true := List.all_eq_true.mp hwf _ hmem
  obtain ⟨f, hf⟩ : ∃ f, ds.getD i .null = .obj f := by
    cases hds : ds.getD i .null <;> rw [hds] at hobj <;>
      simp_all [isObj]
  rw [hf] at hget
  constructor
  · intro hname
    rw [hf] at hname
    simp only [objFields] at hname
    obtain ⟨f2, heq, hst, hvs, hvn, _⟩ := updDevice_match f n st vl hname
    rw [hget, heq]
    simp only [objFields]
    refine ⟨hst, fun v hv => hvs v hv, fun hv => ?_⟩
    rw [hf]
    simpa [objFields] using hvn hv
  · intro hname
    rw [hf] at hname ⊢
    simp only [objFields] at hname
    rw [hget, updDevice_no_match f n st vl hname]

/-- C3 amended witness: both records named `X` are updated, as the indexed
statement reports at the concrete two-record collection. -/
theorem setstatus_updates_every_match_witness :
    ∃ ds2,
      update_device_status "X" "Quarantined" (some 99)
          (.doc (.obj [("devices", .arr [dupFirst, dupSecond])]))
        = some (save_devices ds2)
      ∧ ds2.length = [dupFirst, dupSecond].length
      ∧ ∀ i, i < [dupFirst, dupSecond].length →
          (isStrEq (pyGet (objFields ([dupFirst, dupSecond].getD i .null)) "name")
              "X" = true →
            pyGet (objFields (ds2.getD i .null)) "status" = .str "Quarantined"
            ∧ (∀ v, some (99 : Int) = some v →
                pyGet (objFields (ds2.getD i .null)) "vlan" = .num v)
            ∧ (some (99 : Int) = none →
                pyGet (objFields (ds2.getD i .null)) "vlan"
                  = pyGet (objFields ([dupFirst, dupSecond].getD i .null)) "vlan"))
          ∧ (isStrEq (pyGet (objFields ([dupFirst, dupSecond].getD i .null)) "name")
              "X" = false →
            ds2.getD i .null = [dupFirst, dupSecond].getD i .null) :=
  setstatus_updates_every_match [dupFirst, dupSecond] "X" "Quarantined"
    (some 99) rfl

/-! ## Lemmas about the synthetic generator -/

theorem pyChoice_of_ne_nil (xs : List JsonVal) (i : Nat) (h : xs ≠ []) :
    ∃ d, pyChoice xs i = some d ∧ d ∈ xs := by
  have hlen : 0 < xs.length := List.length_pos.mpr h
  have hm : i % xs.length < xs.length := Nat.mod_lt _ hlen
  exact ⟨xs[i % xs.length],
    by simp [pyChoice, List.getElem?_eq_getElem hm],
    List.getElem_mem hm⟩

theorem pyChoiceStr_mem (xs : List String) (i : Nat) (h : xs ≠ []) :
    pyChoiceStr xs i ∈ xs := by
  have hlen : 0 < xs.length := List.length_pos.mpr h
  have hm : i % xs.length < xs.length := Nat.mod_lt _ hlen
  rw [pyChoiceStr, List.getD_eq_getElem?_getD, List.getElem?_eq_getElem hm]
  exact List.getElem_mem hm

theorem pyChoiceStr_of_lt (xs : List String) (j : Nat) (h : j < xs.length) :
    pyChoiceStr xs j = xs.getD j "" := by
  rw [pyChoiceStr, Nat.mod_eq_of_lt h]

/-- One successful run of `push_fake_alert` on a nonempty well-formed
device collection: the chosen device comes from the suspect pool (all
devices when no suspect exists) and the built alert is appended to the
loaded alert sequence. -/
theorem push_fake_alert_run (devices : List JsonVal) (draws : Draws)
    (clock : String) (afs : FileState) (alerts : List JsonVal)
    (hne : devices ≠ []) (hwf : devices.all isObj = true)
    (has : get_alerts afs = some (.arr alerts)) :
    ∃ chosen,
      pyChoice (if (suspectsOf devices).isEmpty then devices
          else suspectsOf devices) draws.deviceIdx = some chosen
      ∧ chosen ∈ (if (suspectsOf devices).isEmpty then devices
          else suspectsOf devices)
      ∧ push_fake_alert devices draws clock afs
          = some (save_alerts (alerts ++ [mkAlert clock (objFields chosen) draws])) := by
  have hempty : devices.isEmpty = false := by
    cases devices with
    | nil => exact absurd rfl hne
    | cons a l => rfl
  have hpool : (if (suspectsOf devices).isEmpty then devices
      else suspectsOf devices) ≠ [] := by
    by_cases hs : (suspectsOf devices).isEmpty
    · simpa [hs] using hne
    · have hs2 : (suspectsOf devices).isEmpty = false := Bool.eq_false_iff.mpr hs
      rw [hs2]
      simp only [Bool.false_eq_true, if_false]
      intro hnil
      rw [hnil] at hs2
      simp at hs2
  obtain ⟨chosen, hch, hmem⟩ :=
    pyChoice_of_ne_nil _ draws.deviceIdx hpool
  refine ⟨chosen, hch, hmem, ?_⟩
  rw [push_fake_alert, hempty]
  simp only [Bool.false_eq_true, if_false, hwf, if_true]
  rw [hch, has]

/-- C6: the alert log is append-only under the synthetic generator: for
every prior alert sequence, running `push_fake_alert` returns normally
with a log extending the prior sequence, so every prior alert is still
present, unmodified near its original position. -/
theorem alert_log_append_only (devices : List JsonVal) (draws : Draws)
    (clock : String) (afs : FileState) (alerts : List JsonVal)
    (hwf : devices.all isObj = true)
    (has : get_alerts afs = some (.arr alerts)) :
    ∃ afs2, push_fake_alert devices draws clock afs = some afs2
      ∧ ∃ tail, get_alerts afs2 = some (.arr (alerts ++ tail)) := by
  by_cases hdev : devices = []
  · subst hdev
    refine ⟨afs, rfl, [], ?_⟩
    rw [List.append_nil]
    exact has
  · obtain ⟨chosen, _, _, hrun⟩ :=
      push_fake_alert_run devices draws clock afs alerts hdev hwf has
    exact ⟨_, hrun, [mkAlert clock (objFields chosen) draws],
      get_alerts_save _⟩

/-- C6 witness: the append-only statement at a concrete device collection
and empty prior log. -/
theorem alert_log_append_only_witness :
    ∃ afs2, push_fake_alert [camSusp] ⟨0, 0, 0, 1⟩ "2025-01-01 00:00:00"
        (save_alerts []) = some afs2
      ∧ ∃ tail, get_alerts afs2 = some (.arr ([] ++ tail)) :=
  alert_log_append_only [camSusp] ⟨0, 0, 0, 1⟩ "2025-01-01 00:00:00"
    (save_alerts []) [] rfl (get_alerts_save [])

/-- C7 counterexample: with an empty device collection the generator
returns without building any alert: the log stays empty, so no alert with
the `Unknown Device` placeholder (or any other) is produced. -/
theorem unknown_device_placeholder_refuted :
    push_fake_alert [] ⟨0, 0, 0, 1⟩ "2025-01-01 12:00:00" (save_alerts [])
      = some (save_alerts [])
    ∧ get_alerts (save_alerts []) = some (.arr []) :=
  ⟨rfl, rfl⟩

/-- C7 amended: with an empty device collection `push_fake_alert` is a
no-op (no alert is produced); with a nonempty collection the chosen
device is drawn, by the injected uniform index, from the devices whose
status is not Safe when any exist, and from all devices otherwise. -/
theorem generator_device_selection (devices : List JsonVal) (draws : Draws)
    (clock : String) (afs : FileState) (alerts : List JsonVal)
    (hwf : devices.all isObj = true)
    (has : get_alerts afs = some (.arr alerts)) :
    (devices = [] → push_fake_alert devices draws clock afs = some afs)
    ∧ (devices ≠ [] →
        ∃ chosen,
          pyChoice (if (suspectsOf devices).isEmpty then devices
              else suspectsOf devices) draws.deviceIdx = some chosen
          ∧ chosen ∈ (if (suspectsOf devices).isEmpty then devices
              else suspectsOf devices)
          ∧ ((suspectsOf devices).isEmpty = false →
              chosen ∈ suspectsOf devices)
          ∧ push_fake_alert devices draws clock afs
              = some (save_alerts
                  (alerts ++ [mkAlert clock (objFields chosen) draws]))) := by
  constructor
  · intro hdev
    subst hdev
    rfl
  · intro hne
    obtain ⟨chosen, hch, hmem, hrun⟩ :=
      push_fake_alert_run devices draws clock afs alerts hne hwf has
    refine ⟨chosen, hch, hmem, ?_, hrun⟩
    intro hs
    rw [hs] at hmem
    simpa using hmem

/-- C7 amended witness: the selection statement at a concrete collection
with one suspect among two devices. -/
theorem generator_device_selection_witness :
    ([bulbSeed, camSusp] : List JsonVal) ≠ []
    ∧ (∃ chosen,
        pyChoice (if (suspectsOf [bulbSeed, camSusp]).isEmpty
            then [bulbSeed, camSusp] else suspectsOf [bulbSeed, camSusp])
            (⟨0, 0, 0, 1⟩ : Draws).deviceIdx = some chosen
        ∧ chosen ∈ (if (suspectsOf [bulbSeed, camSusp]).isEmpty
            then [bulbSeed, camSusp] else suspectsOf [bulbSeed, camSusp])
        ∧ ((suspectsOf [bulbSeed, camSusp]).isEmpty = false →
            chosen ∈ suspectsOf [bulbSeed, camSusp])
        ∧ push_fake_alert [bulbSeed, camSusp] ⟨0, 0, 0, 1⟩
            "2025-01-01 00:00:00" (save_alerts [])
            = some (save_alerts
                ([] ++ [mkAlert "2025-01-01 00:00:00" (objFields chosen)
                    ⟨0, 0, 0, 1⟩]))) :=
  ⟨by simp,
    (generator_device_selection [bulbSeed, camSusp] ⟨0, 0, 0, 1⟩
      "2025-01-01 00:00:00" (save_alerts []) [] rfl
      (get_alerts_save [])).2 (by simp)⟩

/-- C8 counterexample: the catalog `push_fake_alert` draws from (line 100
of `dashboard.py`) has exactly four entries; `ARP Spoofing`,
`Cross-VLAN Attempt`, `Suspicious Traffic` and `Brute-Force Login` are
not in it, so they are not possible outcomes. -/
theorem alert_type_catalog_refuted :
    typeCatalog = ["Port Scan", "Malware Beacon", "Unauthorized Access",
      "Brute Force"]
    ∧ typeCatalog.length = 4
    ∧ "ARP Spoofing" ∉ typeCatalog
    ∧ "Cross-VLAN Attempt" ∉ typeCatalog
    ∧ "Suspicious Traffic" ∉ typeCatalog
    ∧ "Brute-Force Login" ∉ typeCatalog :=
  ⟨rfl, rfl, by decide, by decide, by decide, by decide⟩

/-- C8 amended: every alert the generator produces has its type drawn,
by the injected uniform index, from the fixed four-entry catalog
Port Scan, Malware Beacon, Unauthorized Access, Brute Force; the type is
always a catalog member, and each of the four entries is the outcome for
a suitable draw. -/
theorem alert_type_from_catalog (devices : List JsonVal) (draws : Draws)
    (clock : String) (afs : FileState) (alerts : List JsonVal)
    (hwf : devices.all isObj = true) (hne : devices ≠ [])
    (has : get_alerts afs = some (.arr alerts)) :
    ∃ chosen,
      push_fake_alert devices draws clock afs
        = some (save_alerts (alerts ++ [mkAlert clock (objFields chosen) draws]))
      ∧ pyGet (objFields (mkAlert clock (objFields chosen) draws)) "type"
          = .str (pyChoiceStr typeCatalog draws.typeIdx)
      ∧ pyChoiceStr typeCatalog draws.typeIdx ∈ typeCatalog
      ∧ ∀ j, j < typeCatalog.length →
          push_fake_alert devices ⟨draws.deviceIdx, j, draws.sevIdx, draws.roll⟩
              clock afs
            = some (save_alerts (alerts ++ [mkAlert clock (objFields chosen)
                ⟨draws.deviceIdx, j, draws.sevIdx, draws.roll⟩]))
          ∧ pyGet (objFields (mkAlert clock (objFields chosen)
                ⟨draws.deviceIdx, j, draws.sevIdx, draws.roll⟩)) "type"
            = .str (typeCatalog.getD j "") := by
  obtain ⟨chosen, hch, _, hrun⟩ :=
    push_fake_alert_run devices draws clock afs alerts hne hwf has
  refine ⟨chosen, hrun, rfl,
    pyChoiceStr_mem typeCatalog draws.typeIdx (by simp [typeCatalog]), ?_⟩
  intro j hj
  obtain ⟨chosen2, hch2, _, hrun2⟩ :=
    push_fake_alert_run devices ⟨draws.deviceIdx, j, draws.sevIdx, draws.roll⟩
      clock afs alerts hne hwf has
  have h1 : pyChoice (if (suspectsOf devices).isEmpty then devices
      else suspectsOf devices) draws.deviceIdx = some chosen2 := hch2
  rw [hch] at h1
  have hcc : chosen2 = chosen := (Option.some.inj h1).symm
  rw [hcc] at hrun2
  refine ⟨hrun2, ?_⟩
  have hty : pyGet (objFields (mkAlert clock (objFields chosen)
      ⟨draws.deviceIdx, j, draws.sevIdx, draws.roll⟩)) "type"
      = .str (pyChoiceStr typeCatalog j) := rfl
  rw [hty, pyChoiceStr_of_lt typeCatalog j hj]

/-- C8 amended witness: the catalog statement at a concrete collection
and draw. -/
theorem alert_type_from_catalog_witness :
    ∃ chosen,
      push_fake_alert [camSusp] ⟨0, 2, 0, 1⟩ "2025-01-01 00:00:00"
          (save_alerts [])
        = some (save_alerts ([] ++ [mkAlert "2025-01-01 00:00:00"
            (objFields chosen) ⟨0, 2, 0, 1⟩]))
      ∧ pyGet (objFields (mkAlert "2025-01-01 00:00:00" (objFields chosen)
            ⟨0, 2, 0, 1⟩)) "type"
          = .str (pyChoiceStr typeCatalog (⟨0, 2, 0, 1⟩ : Draws).typeIdx)
      ∧ pyChoiceStr typeCatalog (⟨0, 2, 0, 1⟩ : Draws).typeIdx ∈ typeCatalog
      ∧ ∀ j, j < typeCatalog.length →
          push_fake_alert [camSusp] ⟨0, j, 0, 1⟩ "2025-01-01 00:00:00"
              (save_alerts [])
            = some (save_alerts ([] ++ [mkAlert "2025-01-01 00:00:00"
                (objFields chosen) ⟨0, j, 0, 1⟩]))
          ∧ pyGet (objFields (mkAlert "2025-01-01 00:00:00" (objFields chosen)
                ⟨0, j, 0, 1⟩)) "type"
            = .str (typeCatalog.getD j "") :=
  alert_type_from_catalog [camSusp] ⟨0, 2, 0, 1⟩ "2025-01-01 00:00:00"
    (save_alerts []) [] rfl (by simp) (get_alerts_save [])

/-- C9: the generator is deterministic once its ambient inputs are
injected: equal device collections, equal random draws, equal clock
readings and equal alert-file states produce identical results, and the
built alert records agree in every field. -/
theorem generator_deterministic (d1 d2 : List JsonVal) (r1 r2 : Draws)
    (c1 c2 : String) (a1 a2 : FileState)
    (hd : d1 = d2) (hr : r1 = r2) (hc : c1 = c2) (ha : a1 = a2) :
    push_fake_alert d1 r1 c1 a1 = push_fake_alert d2 r2 c2 a2
    ∧ ∀ fields, mkAlert c1 fields r1 = mkAlert c2 fields r2 := by
  subst hd; subst hr; subst hc; subst ha
  exact ⟨rfl, fun _ => rfl⟩

/-- C9 witness: determinism at a concrete collection, draw record, clock
string and alert-file state. -/
theorem generator_deterministic_witness :
    push_fake_alert [camSusp] ⟨3, 1, 2, (1 : ℚ)/4⟩ "2025-02-02 08:00:00"
        (save_alerts [])
      = push_fake_alert [camSusp] ⟨3, 1, 2, (1 : ℚ)/4⟩ "2025-02-02 08:00:00"
        (save_alerts []) :=
  (generator_deterministic [camSusp] [camSusp] ⟨3, 1, 2, (1 : ℚ)/4⟩
    ⟨3, 1, 2, (1 : ℚ)/4⟩ "2025-02-02 08:00:00" "2025-02-02 08:00:00"
    (save_alerts []) (save_alerts []) rfl rfl rfl rfl).1

end Dashboard
